import Mathlib

/-!
Verification of the metrics-history pipeline of `performance-graphs`
(`src/app.jsx`): the stream decoder with carry-forward decompression,
the leading-gap fill, the per-sample normalizer, the hour-close cache
install, the `load_hour` subscription issuance and the swap-spike
event scan.  Numbers are modelled as exact rationals extended with the
JavaScript special values `NaN` and the two infinities; `null` is
modelled as `Option.none`.
-/

namespace PerfGraphs

/-- A JavaScript number: a finite rational, `NaN`, or a signed infinity. -/
inductive JSNum where
  | num (q : ℚ)
  | nan
  | posInf
  | negInf
deriving DecidableEq, Repr

/-- One slot of a per-hour series: a JS number, or `null` (the no-data marker). -/
abbrev Slot := Option JSNum

/-- JavaScript `ToNumber` coercion of a nullable scalar: `null` coerces to `0`. -/
def jsNum (o : Option ℚ) : ℚ := o.getD 0

/-- JavaScript division `a / b` on finite operands: division by zero yields
`NaN` (for `0 / 0`) or a signed infinity. -/
def jsDiv (a b : ℚ) : JSNum :=
  if b = 0 then
    if a = 0 then JSNum.nan
    else if 0 < a then JSNum.posInf
    else JSNum.negInf
  else JSNum.num (a / b)

/-- JavaScript `1 - v` for a JS number `v`. -/
def jsOneSub : JSNum → JSNum
  | JSNum.num q => JSNum.num (1 - q)
  | JSNum.nan => JSNum.nan
  | JSNum.posInf => JSNum.negInf
  | JSNum.negInf => JSNum.posInf

/-- JavaScript subtraction on JS numbers (as used by the event scan). -/
def jsSub : JSNum → JSNum → JSNum
  | JSNum.num a, JSNum.num b => JSNum.num (a - b)
  | JSNum.nan, _ => JSNum.nan
  | _, JSNum.nan => JSNum.nan
  | JSNum.posInf, JSNum.posInf => JSNum.nan
  | JSNum.posInf, _ => JSNum.posInf
  | JSNum.negInf, JSNum.negInf => JSNum.nan
  | JSNum.negInf, _ => JSNum.negInf
  | JSNum.num _, JSNum.posInf => JSNum.negInf
  | JSNum.num _, JSNum.negInf => JSNum.posInf

/-- JavaScript comparison `a > q` against a finite literal: `NaN` compares
false, `Infinity` compares true. -/
def jsGt (a : JSNum) (q : ℚ) : Bool :=
  match a with
  | JSNum.num b => decide (q < b)
  | JSNum.nan => false
  | JSNum.posInf => true
  | JSNum.negInf => false

/-- The seven monitored channels, in the order of the `metrics` request list
of `load_hour`: indices 0,1,2 are the CPU time rates, 3 the load average,
4 total memory, 5 available memory, 6 the swap page-out rate. -/
inductive Channel where
  | nice
  | user
  | sys
  | load
  | total
  | avail
  | swap
deriving DecidableEq, Repr

/-- One raw sample of a data frame: an ordered 7-element list where every
element may be `null` ("no change").  Channel 3 delivers the load-average
instance triple (15 min, 1 min, 5 min), itself possibly absent, each
instance possibly missing. -/
structure RawSample where
  nice : Option ℚ
  user : Option ℚ
  sys : Option ℚ
  load : Option (Option ℚ × Option ℚ × Option ℚ)
  total : Option ℚ
  avail : Option ℚ
  swap : Option ℚ
deriving DecidableEq, Repr

/-- The decoder's carry-forward vector `current`: the last valid value of
each channel, `null` before the first real value arrives.  For channel 3
only the extracted 1-minute instance is retained. -/
structure Current where
  nice : Option ℚ
  user : Option ℚ
  sys : Option ℚ
  load1 : Option ℚ
  total : Option ℚ
  avail : Option ℚ
  swap : Option ℚ
deriving DecidableEq, Repr

/-- `const current = [null, null, null, null, null, null, null]`. -/
def initCurrent : Current := ⟨none, none, none, none, none, none, none⟩

/-- Channel-indexed view of the carry-forward vector. -/
def Current.chan (cur : Current) : Channel → Option ℚ
  | Channel.nice => cur.nice
  | Channel.user => cur.user
  | Channel.sys => cur.sys
  | Channel.load => cur.load1
  | Channel.total => cur.total
  | Channel.avail => cur.avail
  | Channel.swap => cur.swap

/-- The value a raw sample effectively delivers for a channel: for channel 3
this is the 1-minute instance, provided the triple is present and that
instance is neither `undefined` nor `null`. -/
def RawSample.delivered (s : RawSample) : Channel → Option ℚ
  | Channel.nice => s.nice
  | Channel.user => s.user
  | Channel.sys => s.sys
  | Channel.load =>
      match s.load with
      | some t => t.2.1
      | none => none
  | Channel.total => s.total
  | Channel.avail => s.avail
  | Channel.swap => s.swap

/-- `if (sample !== null) current[i] = sample`. -/
def updChan (old : Option ℚ) : Option ℚ → Option ℚ
  | some v => some v
  | none => old

/-- The decompression step of the `message` handler: each non-`null` element
overwrites the carry-forward value of its channel; channel 3 is updated from
`sample[1]` (the 1-minute instance) only when that instance is delivered. -/
def decompress (cur : Current) (s : RawSample) : Current where
  nice := updChan cur.nice s.nice
  user := updChan cur.user s.user
  sys := updChan cur.sys s.sys
  load1 := updChan cur.load1
    (match s.load with
     | some t => t.2.1
     | none => none)
  total := updChan cur.total s.total
  avail := updChan cur.avail s.avail
  swap := updChan cur.swap s.swap

/-- The four per-hour series accumulated in the local `data` object. -/
structure HourData where
  use_cpu : List Slot
  sat_cpu : List Slot
  use_memory : List Slot
  sat_memory : List Slot
deriving DecidableEq, Repr

/-- The four `data.*.push(...)` lines of the `message` handler, evaluated on
the carry-forward vector with JavaScript null-to-zero coercion:
`(current[0] + current[1] + current[2]) / 1000`,
`Math.min(current[3], 10) / 10`,
`1 - (current[5] / current[4])`, and
`current[6] > 1000 ? 1 : (current[6] > 1 ? 0.3 : 0)`. -/
def pushSample (d : HourData) (cur : Current) : HourData where
  use_cpu := d.use_cpu ++
    [some (JSNum.num ((jsNum cur.nice + jsNum cur.user + jsNum cur.sys) / 1000))]
  sat_cpu := d.sat_cpu ++
    [some (JSNum.num (min (jsNum cur.load1) 10 / 10))]
  use_memory := d.use_memory ++
    [some (jsOneSub (jsDiv (jsNum cur.avail) (jsNum cur.total)))]
  sat_memory := d.sat_memory ++
    [some (JSNum.num
      (if 1000 < jsNum cur.swap then 1 else if 1 < jsNum cur.swap then 3/10 else 0))]

/-- Processing one sample of a data frame: decompress into `current`, then
push the four normalized values. -/
def processSample (st : Current × HourData) (s : RawSample) : Current × HourData :=
  let cur := decompress st.1 s
  (cur, pushSample st.2 cur)

/-- Processing one data frame (`batch.forEach`). -/
def processBatch (st : Current × HourData) (batch : List RawSample) : Current × HourData :=
  batch.foldl processSample st

/-- The metadata-frame handler: `nodata_offset` 5-second ticks separate the
requested timestamp from the first actual sample, `nodata_minute_offset`
of them form whole minutes.  The source seeds all four series with
`nodata_minute_offset` `null` slots; the zero block of size
`nodata_offset - nodata_minute_offset` is built with `Array.concat`, whose
return value the source discards, so it never reaches the series. -/
def metaFill (timestamp actual : ℤ) : HourData :=
  let nodata_offset := (actual - timestamp).fdiv 5000
  let nodata_minute_offset := nodata_offset.fdiv 12 * 12
  let pre : List Slot := List.replicate nodata_minute_offset.toNat none
  { use_cpu := pre, sat_cpu := pre, use_memory := pre, sat_memory := pre }

/-- One hour's decode run: the metadata frame first, then the data frames in
arrival order. -/
def runHour (timestamp actual : ℤ) (frames : List (List RawSample)) :
    Current × HourData :=
  frames.foldl processBatch (initCurrent, metaFill timestamp actual)

/-- The `close` handler: on a problem, or when `data.use_memory` is empty,
nothing is installed; otherwise the accumulated buffer is stored in
`this.data[timestamp]` as-is. -/
def closeHandler (problem : Bool) (timestamp : ℤ) (d : HourData)
    (cache : ℤ → Option HourData) : ℤ → Option HourData :=
  if problem then cache
  else if d.use_memory.length = 0 then cache
  else fun t => if t = timestamp then some d else cache t

/-- The mutable state of `MetricsHistory`: the hour cache `this.data` and
the list of opened metrics channels (in order of opening). -/
structure HistoryState where
  data : ℤ → Option HourData
  subscriptions : List ℤ

/-- `this.data = {}`, no channel opened yet. -/
def initHistory : HistoryState := ⟨fun _ => none, []⟩

/-- `load_hour(timestamp)`: unconditionally opens a new metrics channel for
the hour — the source consults no cache or loading state before calling
`cockpit.channel`. -/
def load_hour (st : HistoryState) (timestamp : ℤ) : HistoryState :=
  { st with subscriptions := st.subscriptions ++ [timestamp] }

/-- The swap-spike scan of `MetricsHour` over `data.sat_memory`, reporting
the minute label `Math.floor(i / 12)` of each emitted event: `null` slots
are skipped (without updating `prev_val`), an event fires when
`value - prev_val > 0.25`, and `prev_val` is updated after every non-`null`
slot. -/
def scanEventsAux (prev : JSNum) (i : ℕ) : List Slot → List ℕ
  | [] => []
  | none :: rest => scanEventsAux prev (i + 1) rest
  | some v :: rest =>
      (if jsGt (jsSub v prev) (1/4) then [i / 12] else []) ++
        scanEventsAux v (i + 1) rest

/-- The event scan started with `prev_val = 0` at index 0. -/
def scanEvents (sat_memory : List Slot) : List ℕ :=
  scanEventsAux (JSNum.num 0) 0 sat_memory

/-- Same scan, reporting the tick index `i` of each emitted event instead of
its minute label. -/
def scanEventIdxsAux (prev : JSNum) (i : ℕ) : List Slot → List ℕ
  | [] => []
  | none :: rest => scanEventIdxsAux prev (i + 1) rest
  | some v :: rest =>
      (if jsGt (jsSub v prev) (1/4) then [i] else []) ++
        scanEventIdxsAux v (i + 1) rest

/-- The index-reporting scan started with `prev_val = 0` at index 0. -/
def scanEventIdxs (sat_memory : List Slot) : List ℕ :=
  scanEventIdxsAux (JSNum.num 0) 0 sat_memory

/-- A concrete sample delivering a value on every channel (the end-to-end
sample of the source's intended behaviour: CPU rates 10 msec/s each,
1-minute load 1.2, 8 units of memory with 4 available, no swap-out). -/
def sampleFull : RawSample :=
  ⟨some 10, some 10, some 10, some (none, some (6/5), none), some 8, some 4, some 0⟩

/-- A concrete sample delivering CPU, load and swap values while both memory
channels stay absent. -/
def sampleNoMem : RawSample :=
  ⟨some 10, some 10, some 10, some (none, some (6/5), none), none, none, some 0⟩

/-- The illustration series `[0, 0, 0.3, 0.3, 0.6, 0.2, 0.6]` for the event
scan. -/
def exSat : List Slot :=
  [some (JSNum.num 0), some (JSNum.num 0), some (JSNum.num (3/10)),
   some (JSNum.num (3/10)), some (JSNum.num (3/5)), some (JSNum.num (1/5)),
   some (JSNum.num (3/5))]

lemma decompress_chan (cur : Current) (s : RawSample) (c : Channel) :
    (decompress cur s).chan c = updChan (cur.chan c) (s.delivered c) := by
  cases c <;> rfl

lemma processBatch_fst (batch : List RawSample) :
    ∀ st : Current × HourData, (processBatch st batch).1 = batch.foldl decompress st.1 := by
  induction batch with
  | nil => intro st; rfl
  | cons s rest ih =>
      intro st
      have e : processBatch st (s :: rest) = processBatch (processSample st s) rest := rfl
      rw [e, ih (processSample st s)]
      rfl

lemma runHour_fst (t a : ℤ) (frames : List (List RawSample)) :
    (runHour t a frames).1 = frames.flatten.foldl decompress initCurrent := by
  suffices h : ∀ st : Current × HourData,
      (frames.foldl processBatch st).1 = frames.flatten.foldl decompress st.1 by
    exact h (initCurrent, metaFill t a)
  induction frames with
  | nil => intro st; rfl
  | cons b rest ih =>
      intro st
      have e : (b :: rest).foldl processBatch st = rest.foldl processBatch (processBatch st b) := rfl
      rw [e, ih (processBatch st b), processBatch_fst b st]
      simp [List.foldl_append]

lemma chan_foldl (c : Channel) :
    ∀ (l : List RawSample) (cur : Current),
      (l.foldl decompress cur).chan c =
        match (l.filterMap (fun s => RawSample.delivered s c)).getLast? with
        | some v => some v
        | none => cur.chan c := by
  intro l
  induction l with
  | nil => intro cur; rfl
  | cons s rest ih =>
      intro cur
      have e : (s :: rest).foldl decompress cur = rest.foldl decompress (decompress cur s) := rfl
      rw [e, ih (decompress cur s), decompress_chan, List.filterMap_cons]
      cases hd : RawSample.delivered s c with
      | none =>
          cases (rest.filterMap (fun s => RawSample.delivered s c)).getLast? <;>
            simp [updChan]
      | some v =>
          cases hrest : rest.filterMap (fun s => RawSample.delivered s c) with
          | nil => simp [updChan]
          | cons y ys =>
              rw [List.getLast?_cons_cons]
              cases hlast : (y :: ys).getLast? with
              | none => simp at hlast
              | some z => simp

/-- Claim C3: within one subscription, after processing the data frames in
arrival order, the carry-forward state of every channel `c` equals the most
recently delivered value for `c` (for channel 3, the 1-minute sub-field of
the load tuple), and is the initial `null` only when no value was ever
delivered for `c` — it never reverts once a real value has arrived. -/
theorem C3_carry_forward_state (t a : ℤ) (frames : List (List RawSample)) (c : Channel) :
    ((runHour t a frames).1).chan c =
      match (frames.flatten.filterMap (fun s => RawSample.delivered s c)).getLast? with
      | some v => some v
      | none => none := by
  rw [runHour_fst, chan_foldl c frames.flatten initCurrent]
  cases (frames.flatten.filterMap (fun s => RawSample.delivered s c)).getLast? with
  | none => cases c <;> rfl
  | some v => rfl

/-- Claim C9: a close event carrying a problem indicator installs nothing:
the cache mapping from hour epochs to buffers is returned unchanged. -/
theorem C9_problem_close_leaves_cache (ts : ℤ) (d : HourData)
    (cache : ℤ → Option HourData) :
    closeHandler true ts d cache = cache := rfl

lemma processBatch_lengths (batch : List RawSample) :
    ∀ st : Current × HourData,
      (processBatch st batch).2.use_cpu.length = st.2.use_cpu.length + batch.length ∧
      (processBatch st batch).2.sat_cpu.length = st.2.sat_cpu.length + batch.length ∧
      (processBatch st batch).2.use_memory.length = st.2.use_memory.length + batch.length ∧
      (processBatch st batch).2.sat_memory.length = st.2.sat_memory.length + batch.length := by
  induction batch with
  | nil => intro st; simp [processBatch]
  | cons s rest ih =>
      intro st
      obtain ⟨h1, h2, h3, h4⟩ := ih (processSample st s)
      have e : processBatch st (s :: rest) = processBatch (processSample st s) rest := rfl
      refine ⟨?_, ?_, ?_, ?_⟩ <;>
        rw [e] <;>
        first
        | (rw [h1]; simp [processSample, pushSample]; omega)
        | (rw [h2]; simp [processSample, pushSample]; omega)
        | (rw [h3]; simp [processSample, pushSample]; omega)
        | (rw [h4]; simp [processSample, pushSample]; omega)

lemma runFold_lengths (frames : List (List RawSample)) :
    ∀ st : Current × HourData,
      (frames.foldl processBatch st).2.use_cpu.length
        = st.2.use_cpu.length + (frames.map List.length).sum ∧
      (frames.foldl processBatch st).2.sat_cpu.length
        = st.2.sat_cpu.length + (frames.map List.length).sum ∧
      (frames.foldl processBatch st).2.use_memory.length
        = st.2.use_memory.length + (frames.map List.length).sum ∧
      (frames.foldl processBatch st).2.sat_memory.length
        = st.2.sat_memory.length + (frames.map List.length).sum := by
  induction frames with
  | nil => intro st; simp
  | cons b rest ih =>
      intro st
      obtain ⟨h1, h2, h3, h4⟩ := ih (processBatch st b)
      obtain ⟨g1, g2, g3, g4⟩ := processBatch_lengths b st
      have e : (b :: rest).foldl processBatch st = rest.foldl processBatch (processBatch st b) := rfl
      refine ⟨?_, ?_, ?_, ?_⟩ <;> rw [e] <;> simp <;> omega

/-- Claim C10: the gap fill seeds the four series with identical contents,
each decoded sample appends exactly one value to each series, and hence at
every point of an hour's run the four series have equal length. -/
theorem C10_series_lengths_agree (t a : ℤ) (frames : List (List RawSample)) :
    ((runHour t a frames).2.sat_cpu.length = (runHour t a frames).2.use_cpu.length ∧
     (runHour t a frames).2.use_memory.length = (runHour t a frames).2.use_cpu.length ∧
     (runHour t a frames).2.sat_memory.length = (runHour t a frames).2.use_cpu.length) ∧
    ((metaFill t a).sat_cpu = (metaFill t a).use_cpu ∧
     (metaFill t a).use_memory = (metaFill t a).use_cpu ∧
     (metaFill t a).sat_memory = (metaFill t a).use_cpu) ∧
    (∀ (d : HourData) (cur : Current),
      (pushSample d cur).use_cpu.length = d.use_cpu.length + 1 ∧
      (pushSample d cur).sat_cpu.length = d.sat_cpu.length + 1 ∧
      (pushSample d cur).use_memory.length = d.use_memory.length + 1 ∧
      (pushSample d cur).sat_memory.length = d.sat_memory.length + 1) := by
  obtain ⟨h1, h2, h3, h4⟩ := runFold_lengths frames (initCurrent, metaFill t a)
  refine ⟨⟨?_, ?_, ?_⟩, ⟨rfl, rfl, rfl⟩, ?_⟩
  · rw [runHour, h1, h2]; rfl
  · rw [runHour, h1, h3]; rfl
  · rw [runHour, h1, h4]; rfl
  · intro d cur
    refine ⟨?_, ?_, ?_, ?_⟩ <;> simp [pushSample]

/-- Claim C1: for a carry-forward state holding concrete values on all seven
channels (with a positive memory total), processing the values appends to
the four series exactly cpu_utilization = (nice + user + sys) / 1000 with no
upper clamp, cpu_saturation = min(load_1min, 10) / 10, memory_utilization =
1 − available / total, and memory_saturation = 1 if the swap rate > 1000,
0.3 if it is > 1 and ≤ 1000, else 0. -/
theorem C1_normalizer_formulas (d : HourData) (n u s l t a w : ℚ) (ht : 0 < t) :
    pushSample d ⟨some n, some u, some s, some l, some t, some a, some w⟩ =
      { use_cpu := d.use_cpu ++ [some (JSNum.num ((n + u + s) / 1000))],
        sat_cpu := d.sat_cpu ++ [some (JSNum.num (min l 10 / 10))],
        use_memory := d.use_memory ++ [some (JSNum.num (1 - a / t))],
        sat_memory := d.sat_memory ++
          [some (JSNum.num (if 1000 < w then 1 else if 1 < w then 3/10 else 0))] } := by
  simp [pushSample, jsNum, jsDiv, jsOneSub, ht.ne']

/-- Witness for C1: the end-to-end sample of the spec (CPU rates 10 each,
load 1.2, memory 8 total / 4 available, swap rate 0) normalizes to
cpu_utilization 0.03, cpu_saturation 0.12, memory_utilization 0.5,
memory_saturation 0. -/
theorem C1_normalizer_formulas_witness :
    pushSample ⟨[], [], [], []⟩ ⟨some 10, some 10, some 10, some (6/5), some 8, some 4, some 0⟩ =
      ⟨[some (JSNum.num (3/100))], [some (JSNum.num (3/25))],
       [some (JSNum.num (1/2))], [some (JSNum.num 0)]⟩ := by
  rw [C1_normalizer_formulas ⟨[], [], [], []⟩ 10 10 10 (6/5) 8 4 0 (by norm_num)]
  norm_num [min_def]

/-- Claim C2 (code evaluation at the failing input): for a metadata frame 5
ticks (25 s) after the requested hour start, the source pre-fills zero
slots — the block of 5 concrete zero-valued slots demanded by the claim is
built with `Array.concat` whose result is discarded; likewise at a 13-tick
gap only the 12 whole-minute no-data slots survive, not the 13th zero
slot. -/
theorem C2_gap_zero_block_discarded :
    metaFill 0 25000 = ⟨[], [], [], []⟩ ∧
    (metaFill 0 65000).use_cpu = List.replicate 12 (none : Slot) := by
  constructor <;> decide

/-- Counterexample to Claim C4: an hour run with no leading gap and a single
decoded sample is installed into the cache at close with all series of
length 1 — not padded to 720. -/
theorem C4_cex_short_buffer_installed :
    closeHandler false 0 (runHour 0 0 [[sampleFull]]).2 (fun _ => none) 0 =
      some ((runHour 0 0 [[sampleFull]]).2) ∧
    (runHour 0 0 [[sampleFull]]).2.use_cpu.length = 1 ∧ (1 : ℕ) ≠ 720 := by
  refine ⟨rfl, rfl, by decide⟩

/-- Claim C4 as amended: a buffer installed at stream close is installed
exactly as accumulated, its series holding gap_minutes leading slots plus
one slot per decoded sample — possibly fewer than 720 — with no right
padding. -/
theorem C4_amended_installed_unpadded (t a : ℤ) (frames : List (List RawSample))
    (ts : ℤ) (cache : ℤ → Option HourData) (_hta : t ≤ a)
    (hne : (runHour t a frames).2.use_memory.length ≠ 0) :
    closeHandler false ts (runHour t a frames).2 cache ts = some ((runHour t a frames).2) ∧
    (runHour t a frames).2.use_cpu.length =
      (((a - t).fdiv 5000).fdiv 12 * 12).toNat + (frames.map List.length).sum := by
  constructor
  · simp [closeHandler, hne]
  · have h := (runFold_lengths frames (initCurrent, metaFill t a)).1
    rw [runHour, h]
    simp [metaFill]

/-- Witness for C4 as amended: the single-sample hour is installed with
series length 0 + 1. -/
theorem C4_amended_installed_unpadded_witness :
    closeHandler false 0 (runHour 0 0 [[sampleFull]]).2 (fun _ => none) 0 =
      some ((runHour 0 0 [[sampleFull]]).2) ∧
    (runHour 0 0 [[sampleFull]]).2.use_cpu.length =
      (((0 - 0 : ℤ).fdiv 5000).fdiv 12 * 12).toNat + ([[sampleFull]].map List.length).sum :=
  C4_amended_installed_unpadded 0 0 [[sampleFull]] 0 (fun _ => none)
    (by decide) (by decide)

/-- Counterexample to Claim C5: two `load_hour` requests for the same hour,
the second issued while the first is still outstanding, open two metrics
channels, not one. -/
theorem C5_cex_second_request_subscribes_again :
    (load_hour (load_hour initHistory 0) 0).subscriptions.length = 2 ∧
    (2 : ℕ) ≠ 1 := by
  constructor
  · rfl
  · decide

/-- Claim C5 as amended: `load_hour` consults no loading state — every call
unconditionally opens exactly one new subscription (and leaves the cache
untouched), so a repeated request for the same hour opens a second one. -/
theorem C5_amended_every_call_subscribes (st : HistoryState) (ts : ℤ) :
    (load_hour st ts).subscriptions = st.subscriptions ++ [ts] ∧
    (load_hour st ts).data = st.data :=
  ⟨rfl, rfl⟩

/-- Counterexample to Claim C6: a subscription whose metadata frame caused a
12-tick gap fill and which closes without a problem having delivered zero
data samples installs the all-no-data buffer into the cache as complete. -/
theorem C6_cex_gap_only_buffer_installed :
    closeHandler false 0 (metaFill 0 60000) (fun _ => none) 0 = some (metaFill 0 60000) ∧
    (metaFill 0 60000).use_memory = List.replicate 12 (none : Slot) := by
  constructor <;> decide

/-- Claim C6 as amended: the hour is treated as failed (nothing installed)
only when the `use_memory` series is empty at close — zero data samples and
an empty gap fill; a non-empty gap fill defeats the emptiness check. -/
theorem C6_amended_empty_series_not_installed (ts : ℤ) (d : HourData)
    (cache : ℤ → Option HourData) (h : d.use_memory = []) :
    closeHandler false ts d cache = cache := by
  simp [closeHandler, h]

/-- Witness for C6 as amended: a close with the empty buffer leaves the
empty cache unchanged. -/
theorem C6_amended_empty_series_not_installed_witness :
    closeHandler false 0 ⟨[], [], [], []⟩ (fun _ => none) = (fun _ => none) :=
  C6_amended_empty_series_not_installed 0 ⟨[], [], [], []⟩ (fun _ => none) rfl

/-- Counterexample to Claim C7: over the series [0, 0, 0.3, 0.3, 0.6, 0.2,
0.6] the scan emits three events, not the claimed two — the 0→0.3 rise has
delta 0.3 > 0.25 and fires as well. -/
theorem C7_cex_three_events :
    scanEvents exSat = [0, 0, 0] ∧ (scanEvents exSat).length ≠ 2 := by
  have h : scanEvents exSat = [0, 0, 0] := by
    norm_num [scanEvents, scanEventsAux, exSat, jsSub, jsGt]
  exact ⟨h, by rw [h]; decide⟩

/-- Claim C7 as amended: the scan emits events exactly at ticks 2, 4 and 6 —
the 0→0.3, 0.3→0.6 and 0.2→0.6 rises (each delta > 0.25 strictly) — none at
the flat steps or the 0.6→0.2 decrease, each labeled with its minute
`i / 12`. -/
theorem C7_amended_events_at_rises :
    scanEventIdxs exSat = [2, 4, 6] ∧
    scanEvents exSat = (scanEventIdxs exSat).map (fun i => i / 12) := by
  have h : scanEventIdxs exSat = [2, 4, 6] := by
    norm_num [scanEventIdxs, scanEventIdxsAux, exSat, jsSub, jsGt]
  have h2 : scanEvents exSat = [0, 0, 0] := by
    norm_num [scanEvents, scanEventsAux, exSat, jsSub, jsGt]
  refine ⟨h, ?_⟩
  rw [h, h2]
  decide

/-- Counterexample to Claim C8: processing a sample that delivers CPU, load
and swap values while both memory channels are still unset appends NaN to
the memory-utilization series (JavaScript evaluates 1 − null/null as
1 − 0/0 = NaN) — a memory value is appended before the first real memory
sample, and it is not finite. -/
theorem C8_cex_nan_appended :
    (processSample (initCurrent, ⟨[], [], [], []⟩) sampleNoMem).2.use_memory
      = [some JSNum.nan] := by
  simp [processSample, decompress, pushSample, sampleNoMem, initCurrent,
    updChan, jsNum, jsDiv, jsOneSub]

/-- Claim C8 as amended: every processed sample appends exactly one value to
each of the four series and never the no-data sentinel; the CPU and swap
outputs are always finite (unset channels coerce to 0), and the
memory-utilization output is the finite 1 − available/total exactly when
the coerced total is non-zero — when the total channel is still unset the
appended value is NaN or an infinity instead. -/
theorem C8_amended_finite_when_total_set (d : HourData) (cur : Current)
    (h : jsNum cur.total ≠ 0) :
    pushSample d cur =
      { use_cpu := d.use_cpu ++
          [some (JSNum.num ((jsNum cur.nice + jsNum cur.user + jsNum cur.sys) / 1000))],
        sat_cpu := d.sat_cpu ++ [some (JSNum.num (min (jsNum cur.load1) 10 / 10))],
        use_memory := d.use_memory ++
          [some (JSNum.num (1 - jsNum cur.avail / jsNum cur.total))],
        sat_memory := d.sat_memory ++
          [some (JSNum.num
            (if 1000 < jsNum cur.swap then 1 else if 1 < jsNum cur.swap then 3/10 else 0))] } := by
  simp [pushSample, jsDiv, jsOneSub, h]

/-- Witness for C8 as amended: with total 8 and available 4 in the
carry-forward state, all four appended values are finite. -/
theorem C8_amended_finite_when_total_set_witness :
    pushSample ⟨[], [], [], []⟩ ⟨some 10, some 10, some 10, some (6/5), some 8, some 4, some 0⟩ =
      ⟨[some (JSNum.num (3/100))], [some (JSNum.num (3/25))],
       [some (JSNum.num (1/2))], [some (JSNum.num 0)]⟩ := by
  rw [C8_amended_finite_when_total_set ⟨[], [], [], []⟩
    ⟨some 10, some 10, some 10, some (6/5), some 8, some 4, some 0⟩ (by norm_num [jsNum])]
  norm_num [min_def, jsNum]

end PerfGraphs
